import Mathlib

/-!
Shallow embedding of the zefiro workload-dispatch orchestrator
(crates zefiro-kube-service, zefiro-kube-controller, zefiro-job,
zefiro-pipeline), with theorems checking the natural-language
specification against the code.

Conventions of the embedding:
* Rust `BTreeMap<String, Quantity>` is modeled by its key-sorted
  association list `List (String × Quantity)`.
* `kube::Error` is modeled by the only shape the code inspects:
  the `Api` variant with its HTTP status code, and all other variants
  collapsed to `other`.
* Fallible Rust functions return `Except`; environment interactions
  (the cluster API, the environment variable, the inbound message
  stream) are passed in explicitly as values or functions.
* Rust `f64` fields are modeled by their decimal rendering (`String`),
  because the source only ever calls `.to_string()` on them.
-/

namespace Zefiro

/-- Kubernetes resource quantity (`k8s_openapi::apimachinery::pkg::api::resource::Quantity`),
a newtype over its string rendering. -/
structure Quantity where
  value : String
deriving Repr, DecidableEq

/-- Errors of the underlying `kube` client as far as the code inspects them:
`kube::Error::Api(err)` carrying the HTTP status `err.code`, and every other
variant collapsed into `other`. -/
inductive KubeError where
  | api (code : Nat)
  | other
deriving Repr, DecidableEq

/-- `KubernetesClientError` from `crates/zefiro-kube-service/src/k8s.rs`. -/
inductive KubernetesClientError where
  | KubeError (e : KubeError)
  | PodNotSet
  | IncompleteStatus
deriving Repr, DecidableEq

/-- Rust `str::to_lowercase`, modeled characterwise with `Char.toLower` (the
values the code compares against are ASCII). -/
def toLowercase (s : String) : String :=
  ⟨s.data.map Char.toLower⟩

/-- `KubernetesClient::should_delete_pod` (k8s.rs): reads `CALRISSIAN_DELETE_PODS`
(`env_var`, `none` when unset; `env::var(..).unwrap_or_default()` yields `""` then),
lowercases it, and disables deletion exactly for `"false"`, `"no"`, `"0"`. -/
def should_delete_pod (env_var : Option String) : Bool :=
  match toLowercase (env_var.getD "") with
  | "false" | "no" | "0" => false
  | _ => true

/-- `KubernetesClient::delete_pod_name` (k8s.rs): `api_delete` is the outcome of
`api.delete(pod_name, &DeleteParams::default())`. `Ok` maps to `Ok(())`; an `Api`
error with code 404 is considered already deleted and maps to `Ok(())`; every
other error is wrapped in `KubernetesClientError::KubeError`. -/
def delete_pod_name (api_delete : Except KubeError Unit) : Except KubernetesClientError Unit :=
  match api_delete with
  | .ok _ => .ok ()
  | .error (.api code) =>
    if code == 404 then .ok () else .error (.KubeError (.api code))
  | .error .other => .error (.KubeError .other)

/-! ### ActiveWorkloadRegistry: `JobMonitor` from crates/zefiro-kube-controller/src/job.rs

The registry state is the `pod_names` vector (the async/`Mutex` wrappers serialize
access; the state itself is the `Vec<String>`). -/

/-- `JobMonitor::new` / `Default`: the empty registry. -/
def JobMonitor.new : List String := []

/-- `JobMonitor::add` (job.rs): `pod_names.push(pod_name)` — appends unconditionally,
with no membership check. -/
def JobMonitor.add (pod_names : List String) (pod_name : String) : List String :=
  pod_names ++ [pod_name]

/-- `JobMonitor::remove` (job.rs): finds the position of the first equal name and
removes it; when absent it only warns and leaves the list unchanged. -/
def JobMonitor.remove (pod_names : List String) (pod_name : String) : List String :=
  match pod_names.findIdx? (fun name => name == pod_name) with
  | some index => pod_names.eraseIdx index
  | none => pod_names

/-- The `for pod_name in pod_names.iter()` loop of `JobMonitor::cleanup`:
`delete_pod` is the per-id outcome of the deletion call. Returns the ids for which
deletion was attempted (in iteration order) and the ids whose deletion failed
(each logged with `error!` and skipped, the loop continuing). -/
def cleanupLoop (delete_pod : String → Except KubeError Unit) :
    List String → List String × List String
  | [] => ([], [])
  | pod_name :: rest =>
    let r := cleanupLoop delete_pod rest
    match delete_pod pod_name with
    | .ok _ => (pod_name :: r.1, r.2)
    | .error _ => (pod_name :: r.1, pod_name :: r.2)

/-- Observable outcome of `JobMonitor::cleanup`: which deletions were attempted,
which failed (logged), and the registry contents after the call. -/
structure CleanupResult where
  attempted : List String
  failures : List String
  registry : List String
deriving Repr, DecidableEq

/-- `JobMonitor::cleanup` (job.rs): `client_ok` is whether `Client::try_default()`
succeeded — on failure the function logs and returns early, leaving the registry
untouched. Otherwise it attempts deletion of every registered id, logging and
skipping failures, and calls `pod_names.clear()` after the loop. -/
def JobMonitor.cleanup (client_ok : Bool) (delete_pod : String → Except KubeError Unit)
    (pod_names : List String) : CleanupResult :=
  if client_ok then
    let r := cleanupLoop delete_pod pod_names
    { attempted := r.1, failures := r.2, registry := [] }
  else
    { attempted := [], failures := [], registry := pod_names }

/-! ### LifecycleWatcher: `KubernetesClient::wait_for_completion` from
crates/zefiro-kube-service/src/k8s.rs.

The pod status types below mirror the `k8s_openapi` fields the code reads
(timestamps modeled as `Nat`). -/

/-- `ContainerStateTerminated`: the fields read by `handle_completion`. -/
structure ContainerStateTerminated where
  exit_code : Option Int
  started_at : Option Nat
  finished_at : Option Nat
deriving Repr, DecidableEq

/-- `ContainerState`: only the `terminated` variant is inspected. -/
structure ContainerState where
  terminated : Option ContainerStateTerminated
deriving Repr, DecidableEq

/-- `ContainerStatus`: only the `state` field is inspected. -/
structure ContainerStatus where
  state : Option ContainerState
deriving Repr, DecidableEq

/-- `PodStatus`: the `phase` and `container_statuses` fields read by the loop. -/
structure PodStatus where
  phase : Option String
  container_statuses : Option (List ContainerStatus)
deriving Repr, DecidableEq

/-- A pod as observed by one `api.get(&pod_name)` poll: only `status` is read
inside the loop (the name was fixed before the loop started). -/
structure Pod where
  status : Option PodStatus
deriving Repr, DecidableEq

/-- `LogEntry` (k8s.rs). -/
structure LogEntry where
  timestamp : String
  pod_name : String
  entry : String
deriving Repr, DecidableEq

/-- `CompletionResult` (k8s.rs). -/
structure CompletionResult where
  exit_code : Int
  cpu : Option String
  memory : Option String
  start_time : Option Nat
  finish_time : Option Nat
  log : List LogEntry
deriving Repr, DecidableEq

/-- `KubernetesClient::handle_completion` (k8s.rs): writes `completion_result`
only when `state.terminated` is present, taking `exit_code.unwrap_or(-1)`,
the terminated timestamps, and a clone of the accumulated tool log.
Returns the value the field holds after the call (it was `None` before the
single call the loop makes). -/
def handle_completion (tool_log : List LogEntry) (state : ContainerState) :
    Option CompletionResult :=
  match state.terminated with
  | some terminated =>
    some { exit_code := terminated.exit_code.getD (-1)
           cpu := none
           memory := none
           start_time := terminated.started_at
           finish_time := terminated.finished_at
           log := tool_log }
  | none => none

/-- The loop's terminal test: `phase == "Succeeded" || phase == "Failed"`. -/
def isTerminalPhase (phase : String) : Bool :=
  phase == "Succeeded" || phase == "Failed"

/-- One poll's classification in `wait_for_completion`: `some status` when the
nested `if let Some(status)` / `if let Some(phase)` / terminal-phase test all
hold (the loop body then breaks), `none` when the loop sleeps and polls again. -/
def terminalStatus (pod : Pod) : Option PodStatus :=
  match pod.status with
  | some status =>
    match status.phase with
    | some phase => if isTerminalPhase phase then some status else none
    | none => none
  | none => none

/-- First container status and its terminated state, as chained by the code:
`status.container_statuses.unwrap_or_default().get(0).cloned()`, then
`.and_then(|status| status.state)`, then `handle_completion`'s `state.terminated`. -/
def statusFirstTerminated (status : PodStatus) : Option ContainerStateTerminated :=
  (((status.container_statuses.getD []).head?.bind fun cs => cs.state).bind
    fun st => st.terminated)

deriving instance DecidableEq for Except

/-- Observable outcome of one `wait_for_completion` call: its return value,
whether `delete_pod_name` was invoked, and whether `pod_monitor.remove` was
invoked. -/
structure WatchResult where
  result : Except KubernetesClientError CompletionResult
  delete_attempted : Bool
  removed_from_registry : Bool
deriving Repr, DecidableEq

/-- The terminal-phase block of `wait_for_completion` (k8s.rs) together with the
post-loop `completion_result.ok_or(IncompleteStatus)`: reads the first container
status, calls `handle_completion` when a state is present, then — only when
`should_delete_pod()` — calls `delete_pod_name` (whose error the `?` operator
returns at once, skipping the registry removal) followed by
`pod_monitor.remove`. -/
def handleTerminal (env_var : Option String) (tool_log : List LogEntry)
    (api_delete : Except KubeError Unit) (status : PodStatus) : WatchResult :=
  let completion_result :=
    match ((status.container_statuses.getD []).head?.bind fun cs => cs.state) with
    | some state => handle_completion tool_log state
    | none => none
  if should_delete_pod env_var then
    match delete_pod_name api_delete with
    | .error e =>
      { result := .error e, delete_attempted := true, removed_from_registry := false }
    | .ok _ =>
      { result := (completion_result.map Except.ok).getD (.error .IncompleteStatus)
        delete_attempted := true
        removed_from_registry := true }
  else
    { result := (completion_result.map Except.ok).getD (.error .IncompleteStatus)
      delete_attempted := false
      removed_from_registry := false }

/-- The polling loop of `wait_for_completion`, bounded by `fuel` iterations:
`polls n` is the outcome of the `api.get(&pod_name)` call on iteration `n`
(its error is propagated by `?`). The result is `none` when the loop is still
running after `fuel` polls — the source loop has no overall timeout and keeps
sleeping 5 s and polling. -/
def watchLoop (env_var : Option String) (tool_log : List LogEntry)
    (api_delete : Except KubeError Unit) (polls : Nat → Except KubeError Pod) :
    Nat → Option WatchResult
  | 0 => none
  | fuel + 1 =>
    match polls 0 with
    | .error e =>
      some { result := .error (.KubeError e), delete_attempted := false
             removed_from_registry := false }
    | .ok pod =>
      match terminalStatus pod with
      | some status => some (handleTerminal env_var tool_log api_delete status)
      | none => watchLoop env_var tool_log api_delete (fun n => polls (n + 1)) fuel

/-- `KubernetesClient::wait_for_completion` (k8s.rs): fails with `PodNotSet`
before any polling when no pod was stored by `submit_pod`; otherwise runs the
polling loop. -/
def wait_for_completion (stored_pod_name : Option String) (env_var : Option String)
    (tool_log : List LogEntry) (api_delete : Except KubeError Unit)
    (polls : Nat → Except KubeError Pod) (fuel : Nat) : Option WatchResult :=
  match stored_pod_name with
  | none =>
    some { result := .error .PodNotSet, delete_attempted := false
           removed_from_registry := false }
  | some _ => watchLoop env_var tool_log api_delete polls fuel

/-! ### WorkloadSpecBuilder: `JobBuilder` from crates/zefiro-job/src/builder.rs
with its `JobResources` (resources.rs) and `JobPriority` (priority.rs).
crates/zefiro-kube-controller/src/job.rs declares an identical `JobPriority`. -/

/-- `JobPriority` (zefiro-job/src/priority.rs; identically declared in
zefiro-kube-controller/src/job.rs). -/
inductive JobPriority where
  | Lowest
  | Low
  | Medium
  | High
  | Highest
deriving Repr, DecidableEq

/-- `JobPriority::to_string`. -/
def JobPriority.to_string : JobPriority → String
  | .Lowest => "lowest"
  | .Low => "low"
  | .Medium => "medium"
  | .High => "high"
  | .Highest => "highest"

/-- `JobResources` (zefiro-job/src/resources.rs). The `cpus: f64` field is
modeled by its decimal rendering (the source only uses `self.cpus.to_string()`);
`ram: u32` and `disk: u32` are modeled as `Nat` (their formatting never
overflows). -/
structure JobResources where
  cpus : String
  ram : Nat
  disk : Nat
deriving Repr, DecidableEq

/-- `JobResources::to_dict`: a `BTreeMap` built from the three entries, modeled
by its key-sorted association list ("cpu" < "ephemeral-storage" < "memory"). -/
def JobResources.to_dict (r : JobResources) : List (String × Quantity) :=
  [("cpu", ⟨r.cpus⟩),
   ("ephemeral-storage", ⟨toString r.disk ++ "M"⟩),
   ("memory", ⟨toString r.ram ++ "M"⟩)]

/-- `VolumeMount`: the fields the builders set. -/
structure VolumeMount where
  name : String
  mount_path : String
deriving Repr, DecidableEq

/-- `ResourceRequirements`: `limits` and `requests` (`claims` is never set). -/
structure ResourceRequirements where
  limits : Option (List (String × Quantity))
  requests : Option (List (String × Quantity))
deriving Repr, DecidableEq

/-- `Container`: the fields the builders set; `ports` holds the
`container_port` numbers (only zefiro-kube-controller sets it). -/
structure Container where
  name : String
  image : Option String
  ports : Option (List Int) := none
  image_pull_policy : Option String
  args : Option (List String)
  resources : Option ResourceRequirements
  volume_mounts : Option (List VolumeMount)
deriving Repr, DecidableEq

/-- `HostPathVolumeSource`. -/
structure HostPathVolumeSource where
  path : String
  type_ : Option String
deriving Repr, DecidableEq

/-- `Volume`: the fields the builders set. -/
structure Volume where
  name : String
  host_path : Option HostPathVolumeSource
deriving Repr, DecidableEq

/-- `PodSpec`: the fields the builders set. -/
structure PodSpec where
  containers : List Container
  volumes : Option (List Volume)
  priority_class_name : Option String
  restart_policy : Option String
deriving Repr, DecidableEq

/-- `PodTemplateSpec`. -/
structure PodTemplateSpec where
  spec : Option PodSpec
deriving Repr, DecidableEq

/-- `JobSpec`: the fields the builders set. -/
structure JobSpec where
  template : PodTemplateSpec
  active_deadline_seconds : Option Int
  backoff_limit : Option Int
  ttl_seconds_after_finished : Option Int
deriving Repr, DecidableEq

/-- `ObjectMeta`: only `name` is set. -/
structure ObjectMeta where
  name : Option String
deriving Repr, DecidableEq

/-- `k8s_openapi::api::batch::v1::Job`: the fields the builders set. -/
structure Job where
  metadata : ObjectMeta
  spec : Option JobSpec
deriving Repr, DecidableEq

/-- Rust `usize as i32` (two's-complement truncating cast). -/
def usizeToI32 (n : Nat) : Int :=
  let m : Nat := n % 2 ^ 32
  if m < 2 ^ 31 then (m : Int) else (m : Int) - 2 ^ 32

/-- Rust `usize as i64` (two's-complement truncating cast). -/
def usizeToI64 (n : Nat) : Int :=
  let m : Nat := n % 2 ^ 64
  if m < 2 ^ 63 then (m : Int) else (m : Int) - 2 ^ 64

/-- `HOST_PATH_TYPE` (zefiro-job/src/builder.rs). -/
def HOST_PATH_TYPE : String := "Directory"

/-- `RESTART_POLICY` (zefiro-job/src/builder.rs). -/
def RESTART_POLICY : String := "Never"

/-- `TTL_SECONDS` (zefiro-job/src/builder.rs): 5 min in seconds. -/
def TTL_SECONDS : Nat := 300

/-- `JobBuilder` (zefiro-job/src/builder.rs). -/
structure JobBuilder where
  job_name : String
  container : Container
  priority : JobPriority
  time_limit : Nat
  inputs_dir : String
  outputs_dir : String
  ttl_seconds : Nat

/-- `JobBuilder::create_volume_mount`. -/
def JobBuilder.create_volume_mount (dir name : String) : VolumeMount :=
  { name := name, mount_path := dir }

/-- `JobBuilder::create_container` (zefiro-job/src/builder.rs): note
`limits: limits.map(|res| res.to_dict())` — the limits entry is `None`
exactly when no `limits` resources were supplied — and
`image_pull_policy: Some(RESTART_POLICY.to_string())`. -/
def JobBuilder.create_container (name image : String) (args : List String)
    (requests : JobResources) (limits : Option JobResources)
    (inputs_dir outputs_dir : String) : Container :=
  { name := name
    image := some image
    image_pull_policy := some RESTART_POLICY
    args := some args
    resources := some { limits := limits.map JobResources.to_dict
                        requests := some requests.to_dict }
    volume_mounts := some [JobBuilder.create_volume_mount inputs_dir "inputs",
                           JobBuilder.create_volume_mount outputs_dir "outputs"] }

/-- `JobBuilder::new` (zefiro-job/src/builder.rs): in particular
`ttl_seconds = if time_limit > TTL_SECONDS { time_limit } else { TTL_SECONDS }`. -/
def JobBuilder.new (job_name container_name image_uri : String)
    (container_args : List String) (min_resources : JobResources)
    (max_resources : Option JobResources) (priority : JobPriority)
    (time_limit : Nat) (inputs_dir outputs_dir : String) : JobBuilder :=
  { job_name := job_name
    container := JobBuilder.create_container container_name image_uri container_args
      min_resources max_resources inputs_dir outputs_dir
    priority := priority
    time_limit := time_limit
    inputs_dir := inputs_dir
    outputs_dir := outputs_dir
    ttl_seconds := if time_limit > TTL_SECONDS then time_limit else TTL_SECONDS }

/-- `JobBuilder::create_volume`. -/
def JobBuilder.create_volume (name dir : String) : Volume :=
  { name := name
    host_path := some { path := dir, type_ := some HOST_PATH_TYPE } }

/-- `JobBuilder::create_pod_template`. -/
def JobBuilder.create_pod_template (b : JobBuilder) : PodTemplateSpec :=
  { spec := some { containers := [b.container]
                   volumes := some [JobBuilder.create_volume "inputs" b.inputs_dir,
                                    JobBuilder.create_volume "outputs" b.outputs_dir]
                   priority_class_name := some b.priority.to_string
                   restart_policy := some RESTART_POLICY } }

/-- `JobBuilder::build` (zefiro-job/src/builder.rs). -/
def JobBuilder.build (b : JobBuilder) : Job :=
  { metadata := { name := some b.job_name }
    spec := some { template := b.create_pod_template
                   active_deadline_seconds := some (usizeToI64 b.time_limit)
                   backoff_limit := some 0
                   ttl_seconds_after_finished := some (usizeToI32 b.ttl_seconds) } }

/-! ### The older builder: `JobBuilder` from crates/zefiro-kube-controller/src/job.rs -/

namespace KubeController

/-- Modelled from the spec: `Resources` of crate zefiro-kube-controller
(`crate::resources::Resources`; the `resources` module is not under src/, only
its importers are). Per spec §4.1 a ResourceSpec is a {cpu, memory, disk}
triple rendering to quantities `"cpu" ↦ cpu_string`, `"memory" ↦ "<MB>M"`,
`"ephemeral-storage" ↦ "<MB>M"`, the same shape as `JobResources`. -/
structure Resources where
  cpus : String
  ram : Nat
  disk : Nat
deriving Repr, DecidableEq

/-- Modelled from the spec: `Resources::to_dict` per spec §4.1
(`to_quantities()` renders cpu / memory / ephemeral-storage), modeled like
`JobResources.to_dict` as the key-sorted association list. -/
def Resources.to_dict (r : Resources) : List (String × Quantity) :=
  [("cpu", ⟨r.cpus⟩),
   ("ephemeral-storage", ⟨toString r.disk ++ "M"⟩),
   ("memory", ⟨toString r.ram ++ "M"⟩)]

/-- `JobBuilder` (zefiro-kube-controller/src/job.rs). -/
structure JobBuilder where
  pod_name : Option String
  container : Container
  volumes : List Volume
  priority : JobPriority
  time_limit : Nat
  retries : Nat

/-- `JobBuilder::create_container` (zefiro-kube-controller/src/job.rs): note
`limits: Some(limits.map_or(BTreeMap::new(), |resources| resources.to_dict()))`
— the limits entry is always present, and is the empty map when no `limits`
resources were supplied. -/
def JobBuilder.create_container (name image : String) (port : Int)
    (args : List String) (limits : Option Resources) (requests : Resources)
    (mount_path mount_name : String) : Container :=
  { name := name
    image := some image
    ports := some [port]
    image_pull_policy := some "Never"
    args := some args
    resources := some { limits := some ((limits.map Resources.to_dict).getD [])
                        requests := some requests.to_dict }
    volume_mounts := some [{ mount_path := mount_path, name := mount_name }] }

/-- `JobBuilder::create_host_path_volume` (zefiro-kube-controller/src/job.rs). -/
def JobBuilder.create_host_path_volume (name path : String)
    (volume_type : Option String) : Volume :=
  { name := name
    host_path := some { path := path, type_ := volume_type } }

/-- `JobBuilder::new` (zefiro-kube-controller/src/job.rs): passes
`max_resources` as the container's limits and `min_resources` as its requests,
and fixes `retries: 0`. -/
def JobBuilder.new (pod_name container_name image_uri : String)
    (container_port : Int) (container_args : List String)
    (min_resources : Resources) (max_resources : Option Resources)
    (priority : JobPriority) (time_limit : Nat) : JobBuilder :=
  { pod_name := some pod_name
    container := JobBuilder.create_container container_name image_uri
      container_port container_args max_resources min_resources "/inputs" "inputs"
    volumes := [JobBuilder.create_host_path_volume "inputs" "/inputs" (some "Directory")]
    priority := priority
    time_limit := time_limit
    retries := 0 }

/-- `JobBuilder::create_pod_template` (zefiro-kube-controller/src/job.rs). -/
def JobBuilder.create_pod_template (b : JobBuilder) : PodTemplateSpec :=
  { spec := some { containers := [b.container]
                   volumes := some b.volumes
                   priority_class_name := some b.priority.to_string
                   restart_policy := some "Never" } }

/-- `JobBuilder::create` (zefiro-kube-controller/src/job.rs): note
`ttl_seconds_after_finished: Some(0)`. -/
def JobBuilder.create (b : JobBuilder) : Job :=
  { metadata := { name := b.pod_name }
    spec := some { template := b.create_pod_template
                   active_deadline_seconds := some (usizeToI64 b.time_limit)
                   backoff_limit := some (usizeToI32 b.retries)
                   ttl_seconds_after_finished := some 0 } }

end KubeController

/-! ### DispatchLoop: `KubeService::run` from crates/zefiro-pipeline/src/service.rs -/

/-- `Message` (zefiro-pipeline/src/message.rs). -/
structure Message where
  job_id : String
  image : String
  min_resources : JobResources
  max_resources : Option JobResources
  time_limit : Nat
  args : List String
  priority : JobPriority
deriving Repr, DecidableEq

/-- An inbound NATS request as the `run` loop observes it: the raw payload
bytes (as a string) together with the environment's outcomes for the two
fallible steps the loop performs on it — `parsed` is the combined result of
`String::from_utf8(..)` and `Message::from_string(..)` (serde parsing, modeled
by its result), and `submit` is the outcome of the `self.k8s.create` call
(`anyhow` errors modeled by their message). -/
structure InboundRequest where
  payload : String
  parsed : Option Message
  submit : Except String Unit
deriving Repr, DecidableEq

/-- `KubeService::launch_job` (zefiro-pipeline/src/service.rs): builds a Job
from the message via the crate's `JobBuilder` (spec §4.2: the build step is
pure and total on well-formed input; the crate's own `builder` module is not
under src/) and submits it with `self.k8s.create(..).await?`, so its result is
exactly the submission outcome. -/
def launch_job (msg : Message) (submit : Except String Unit) : Except String Unit :=
  submit

/-- How `KubeService::run`'s message loop ended. -/
inductive LoopExit where
  | finished
  | panicked
  | errored (e : String)
deriving Repr, DecidableEq

/-- The `while let Some(request) = endpoint.next().await` loop of
`KubeService::run` (zefiro-pipeline/src/service.rs), over the sequence of
inbound requests: each iteration runs
`Message::from_string(&String::from_utf8(..).unwrap()).unwrap()` — a parse
failure panics, ending the loop with nothing more processed — and then
`self.launch_job(message).await?` — a submission failure returns the error
from `run`, likewise ending the loop. Returns the `job_id`s successfully
launched, in order, and how the loop ended. -/
def run_loop : List InboundRequest → List String × LoopExit
  | [] => ([], .finished)
  | request :: rest =>
    match request.parsed with
    | none => ([], .panicked)
    | some message =>
      match launch_job message request.submit with
      | .error e => ([], .errored e)
      | .ok _ =>
        let r := run_loop rest
        (message.job_id :: r.1, r.2)

/-! ## Theorems -/

/-- The cleanup loop attempts every id in order and records exactly the ids
whose deletion failed. -/
theorem cleanupLoop_attempted_and_failures
    (delete_pod : String → Except KubeError Unit) (pod_names : List String) :
    (cleanupLoop delete_pod pod_names).1 = pod_names ∧
    (cleanupLoop delete_pod pod_names).2
      = pod_names.filter (fun p => !(delete_pod p).isOk) := by
  induction pod_names with
  | nil => exact ⟨rfl, rfl⟩
  | cons p rest ih =>
    simp only [cleanupLoop, List.filter]
    cases h : delete_pod p <;>
      simp [h, Except.isOk, Except.toBool, ih.1, ih.2]

/-- C4 (counterexample): starting from the empty registry, `add "a"` twice
yields `["a", "a"]` — `add` performs no membership check, so the registry does
contain duplicate ids, contrary to the claim. -/
theorem c4_add_duplicates_counterexample :
    JobMonitor.add (JobMonitor.add JobMonitor.new "a") "a" = ["a", "a"] ∧
    ¬ (JobMonitor.add (JobMonitor.add JobMonitor.new "a") "a").Nodup := by
  exact ⟨rfl, by decide⟩

/-- C4 (amended): `JobMonitor::add` appends the id unconditionally
(`pod_names.push(pod_name)`, no membership check); in particular adding an id
that is already present leaves the registry with duplicate ids. -/
theorem c4_add_appends_unconditionally (pod_names : List String)
    (pod_name : String) (h : pod_name ∈ pod_names) :
    JobMonitor.add pod_names pod_name = pod_names ++ [pod_name] ∧
    ¬ (JobMonitor.add pod_names pod_name).Nodup := by
  refine ⟨rfl, fun hnd => ?_⟩
  rw [JobMonitor.add, List.nodup_append] at hnd
  exact hnd.2.2 h (by simp)

/-- Witness for C4's amended theorem at `pod_names = ["a"]`, `pod_name = "a"`. -/
theorem c4_add_appends_unconditionally_witness :
    JobMonitor.add ["a"] "a" = ["a"] ++ ["a"] ∧
    ¬ (JobMonitor.add ["a"] "a").Nodup :=
  c4_add_appends_unconditionally ["a"] "a" (by decide)

/-- C5: with the cluster client available, `JobMonitor::cleanup` attempts
deletion of every registered id (in order), the ids whose deletion failed are
exactly the logged failures (the loop continues past them), and the registry
is cleared after every entry was attempted. -/
theorem c5_cleanup_attempts_all_and_clears
    (delete_pod : String → Except KubeError Unit) (pod_names : List String) :
    (JobMonitor.cleanup true delete_pod pod_names).attempted = pod_names ∧
    (JobMonitor.cleanup true delete_pod pod_names).failures
      = pod_names.filter (fun p => !(delete_pod p).isOk) ∧
    (JobMonitor.cleanup true delete_pod pod_names).registry = [] := by
  have h := cleanupLoop_attempted_and_failures delete_pod pod_names
  exact ⟨h.1, h.2, rfl⟩

/-- C6: `delete_pod_name` maps a 404 API error (workload already gone) to
success, success to success, and every other error — an API error with any
other code, or a non-API error — to the wrapped `KubeError` deletion error. -/
theorem c6_delete_not_found_is_ok (code : Nat) (h : code ≠ 404) :
    delete_pod_name (Except.error (KubeError.api 404)) = Except.ok () ∧
    delete_pod_name (Except.ok ()) = Except.ok () ∧
    delete_pod_name (Except.error (KubeError.api code))
      = Except.error (KubernetesClientError.KubeError (KubeError.api code)) ∧
    delete_pod_name (Except.error KubeError.other)
      = Except.error (KubernetesClientError.KubeError KubeError.other) := by
  refine ⟨rfl, rfl, ?_, rfl⟩
  simp [delete_pod_name, h]

/-- Witness for C6 at `code = 500`. -/
theorem c6_delete_not_found_is_ok_witness :
    delete_pod_name (Except.error (KubeError.api 404)) = Except.ok () ∧
    delete_pod_name (Except.ok ()) = Except.ok () ∧
    delete_pod_name (Except.error (KubeError.api 500))
      = Except.error (KubernetesClientError.KubeError (KubeError.api 500)) ∧
    delete_pod_name (Except.error KubeError.other)
      = Except.error (KubernetesClientError.KubeError KubeError.other) :=
  c6_delete_not_found_is_ok 500 (by decide)

/-- C9: for every input, the container built by zefiro-job's
`JobBuilder::create_container` has `image_pull_policy = Some(RESTART_POLICY)`,
the restart-policy constant, whose value is `"Never"`. -/
theorem c9_image_pull_policy_never (name image : String) (args : List String)
    (requests : JobResources) (limits : Option JobResources)
    (inputs_dir outputs_dir : String) :
    (JobBuilder.create_container name image args requests limits inputs_dir
        outputs_dir).image_pull_policy = some RESTART_POLICY ∧
    RESTART_POLICY = "Never" :=
  ⟨rfl, rfl⟩

/-- C7 (counterexample): the zefiro-kube-controller `create_container`, given
no max resources, emits a limits map that is present and empty
(`Some(BTreeMap::new())`), not absent — refuting the claim as stated for this
cited builder. -/
theorem c7_limits_empty_map_counterexample :
    ¬ (((KubeController.JobBuilder.create_container "step" "tool:latest" 80 []
            none ⟨"1", 512, 512⟩ "/inputs" "inputs").resources.bind
          fun r => r.limits) = none) := by
  decide

/-- C7 (amended): zefiro-job's `create_container` omits the limits map
entirely (`None`) when no max resources are supplied, and emits exactly the
keys cpu / ephemeral-storage / memory when they are; zefiro-kube-controller's
`create_container` instead always emits a present limits map — empty when no
max resources are supplied, and with exactly those keys otherwise. -/
theorem c7_limits_presence (name image : String) (args : List String)
    (requests maxr : JobResources) (inputs_dir outputs_dir : String)
    (port : Int) (kreq kmax : KubeController.Resources)
    (mount_path mount_name : String) :
    ((JobBuilder.create_container name image args requests none inputs_dir
        outputs_dir).resources.bind fun r => r.limits) = none ∧
    ((JobBuilder.create_container name image args requests (some maxr)
        inputs_dir outputs_dir).resources.bind fun r => r.limits)
      = some maxr.to_dict ∧
    maxr.to_dict.map Prod.fst = ["cpu", "ephemeral-storage", "memory"] ∧
    ((KubeController.JobBuilder.create_container name image port args none kreq
        mount_path mount_name).resources.bind fun r => r.limits) = some [] ∧
    ((KubeController.JobBuilder.create_container name image port args
        (some kmax) kreq mount_path mount_name).resources.bind
      fun r => r.limits) = some kmax.to_dict ∧
    kmax.to_dict.map Prod.fst = ["cpu", "ephemeral-storage", "memory"] :=
  ⟨rfl, rfl, rfl, rfl, rfl, rfl⟩

/-- C8 (counterexample): the zefiro-kube-controller builder fixes
`ttl_seconds_after_finished` at 0 — for `time_limit = 60` it is `some 0`, not
`max(time_limit, TTL_SECONDS)` — refuting the claim as stated for this cited
builder. -/
theorem c8_ttl_zero_counterexample :
    ((KubeController.JobBuilder.new "job-1" "job-1" "tool:latest" 80 []
          ⟨"1", 512, 512⟩ none JobPriority.Lowest 60).create.spec.bind
        fun s => s.ttl_seconds_after_finished) = some 0 ∧
    ¬ (((KubeController.JobBuilder.new "job-1" "job-1" "tool:latest" 80 []
            ⟨"1", 512, 512⟩ none JobPriority.Lowest 60).create.spec.bind
          fun s => s.ttl_seconds_after_finished)
        = some ((max 60 TTL_SECONDS : Nat) : Int)) := by
  refine ⟨rfl, by decide⟩

/-- C8 (amended): for any `time_limit` below `2^31` (the `as i32` cast does
not wrap), zefiro-job's `JobBuilder::build` sets the retention
TTL-after-finish to `max(time_limit, TTL_SECONDS)` with floor
`TTL_SECONDS = 300`; the zefiro-kube-controller `JobBuilder::create` instead
fixes it at 0. -/
theorem c8_ttl_after_finish (job_name container_name image_uri : String)
    (container_args : List String) (min_resources : JobResources)
    (max_resources : Option JobResources) (priority : JobPriority)
    (time_limit : Nat) (inputs_dir outputs_dir : String)
    (pod_name cname img : String) (port : Int) (cargs : List String)
    (kmin : KubeController.Resources) (kmax : Option KubeController.Resources)
    (kp : JobPriority) (h : time_limit < 2 ^ 31) :
    ((JobBuilder.new job_name container_name image_uri container_args
          min_resources max_resources priority time_limit inputs_dir
          outputs_dir).build.spec.bind fun s => s.ttl_seconds_after_finished)
      = some ((max time_limit TTL_SECONDS : Nat) : Int) ∧
    ((KubeController.JobBuilder.new pod_name cname img port cargs kmin kmax kp
          time_limit).create.spec.bind fun s => s.ttl_seconds_after_finished)
      = some 0 := by
  constructor
  · show some (usizeToI32
        (if time_limit > TTL_SECONDS then time_limit else TTL_SECONDS))
      = some ((max time_limit TTL_SECONDS : Nat) : Int)
    have hm : (if time_limit > TTL_SECONDS then time_limit else TTL_SECONDS)
        = max time_limit TTL_SECONDS := by
      rw [Nat.max_def]
      split <;> split <;> omega
    have hlt : max time_limit TTL_SECONDS < 2 ^ 31 :=
      Nat.max_lt.mpr ⟨h, by decide⟩
    have h32 : max time_limit TTL_SECONDS < 2 ^ 32 :=
      lt_trans hlt (by norm_num)
    rw [hm]
    unfold usizeToI32
    rw [Nat.mod_eq_of_lt h32, if_pos hlt]
  · rfl

/-- Witness for C8's amended theorem at `time_limit = 60` (below the floor:
the TTL is the 300-second floor and the controller builder's is 0). -/
theorem c8_ttl_after_finish_witness :
    ((JobBuilder.new "job-1" "step" "tool:latest" [] ⟨"1", 512, 512⟩ none
          JobPriority.Low 60 "/inputs" "/outputs").build.spec.bind
        fun s => s.ttl_seconds_after_finished)
      = some ((max 60 TTL_SECONDS : Nat) : Int) ∧
    ((KubeController.JobBuilder.new "job-1" "step" "tool:latest" 80 []
          ⟨"1", 512, 512⟩ none JobPriority.Low 60).create.spec.bind
        fun s => s.ttl_seconds_after_finished) = some 0 :=
  c8_ttl_after_finish "job-1" "step" "tool:latest" [] ⟨"1", 512, 512⟩ none
    JobPriority.Low 60 "/inputs" "/outputs" "job-1" "step" "tool:latest" 80 []
    ⟨"1", 512, 512⟩ none JobPriority.Low (by decide)

/-- A terminated container state with exit code 0 and no timestamps. -/
def succeededTerminated : ContainerStateTerminated :=
  { exit_code := some 0, started_at := none, finished_at := none }

/-- A pod status in phase Succeeded whose first container status carries
`succeededTerminated`. -/
def succeededStatus : PodStatus :=
  { phase := some "Succeeded"
    container_statuses :=
      some [{ state := some { terminated := some succeededTerminated } }] }

/-- The pod wrapping `succeededStatus`. -/
def succeededPod : Pod := { status := some succeededStatus }

/-- C1 (code evaluated at the failing inputs): `wait_for_completion` calls
`pod_monitor.remove` only inside the `should_delete_pod()` branch and only
after a successful delete. With `CALRISSIAN_DELETE_PODS="false"` a pod
reaching the terminal phase Succeeded completes without the registry removal;
with deletion enabled but the cluster delete failing, the error is returned
before the removal. In both runs the claim requires `remove` to be called. -/
theorem c1_remove_skipped_on_terminal_phase :
    wait_for_completion (some "job-1") (some "false") [] (Except.ok ())
        (fun _ => Except.ok succeededPod) 1
      = some { result := Except.ok
                 { exit_code := 0, cpu := none, memory := none,
                   start_time := none, finish_time := none, log := [] }
               delete_attempted := false
               removed_from_registry := false } ∧
    wait_for_completion (some "job-1") none [] (Except.error KubeError.other)
        (fun _ => Except.ok succeededPod) 1
      = some { result := Except.error
                 (KubernetesClientError.KubeError KubeError.other)
               delete_attempted := true
               removed_from_registry := false } :=
  ⟨rfl, rfl⟩

/-- For any status sequence whose polls all succeed and never show a terminal
phase, the watch loop is still polling after any number of iterations. -/
theorem watchLoop_no_terminal_is_none (env_var : Option String)
    (tool_log : List LogEntry) (api_delete : Except KubeError Unit) :
    ∀ (fuel : Nat) (polls : Nat → Except KubeError Pod),
      (∀ n, (polls n).isOk = true) →
      (∀ n pod, polls n = Except.ok pod → terminalStatus pod = none) →
      watchLoop env_var tool_log api_delete polls fuel = none := by
  intro fuel
  induction fuel with
  | zero => intro polls _ _; rfl
  | succ n ih =>
    intro polls hnoerr hterm
    cases hp : polls 0 with
    | error e =>
      have h0 := hnoerr 0
      rw [hp] at h0
      simp [Except.isOk, Except.toBool] at h0
    | ok pod =>
      have ht := hterm 0 pod hp
      simp only [watchLoop, hp, ht]
      exact ih (fun k => polls (k + 1)) (fun k => hnoerr (k + 1))
        (fun k p hk => hterm (k + 1) p hk)

/-- C2 (code evaluated at the failing input): `wait_for_completion` has no
overall timeout: for every status sequence in which `api.get` always succeeds
but no observed pod ever reaches a terminal phase, and for every iteration
bound, the loop is still polling — it never returns, with a WatchTimeout or
otherwise (`KubernetesClientError` has no timeout variant at all). -/
theorem c2_watch_never_times_out (stored_pod_name : String)
    (env_var : Option String) (tool_log : List LogEntry)
    (api_delete : Except KubeError Unit) (polls : Nat → Except KubeError Pod)
    (hnoerr : ∀ n, (polls n).isOk = true)
    (hterm : ∀ n pod, polls n = Except.ok pod → terminalStatus pod = none)
    (fuel : Nat) :
    wait_for_completion (some stored_pod_name) env_var tool_log api_delete
      polls fuel = none :=
  watchLoop_no_terminal_is_none env_var tool_log api_delete fuel polls hnoerr
    hterm

/-- Witness for C2: a pod that never publishes a status, polled for 7 rounds. -/
theorem c2_watch_never_times_out_witness :
    wait_for_completion (some "job-1") none [] (Except.ok ())
      (fun _ => Except.ok { status := none }) 7 = none :=
  c2_watch_never_times_out "job-1" none [] (Except.ok ())
    (fun _ => Except.ok { status := none })
    (fun _ => rfl)
    (fun _ pod hp => by cases hp; rfl) 7

/-- A well-formed inbound run-request message, as `serde` would produce it. -/
def exampleMessage : Message :=
  { job_id := "job-b", image := "tool:latest", min_resources := ⟨"1", 512, 512⟩
    max_resources := none, time_limit := 60, args := [], priority := .Low }

/-- C3 (code evaluated at the failing inputs): the dispatch loop of
`KubeService::run` does not survive a single failure. A first message that
fails to parse panics the loop (`.unwrap()`), and a first message whose
submission fails makes `run` return that error (`?`); in both runs the second,
well-formed message is never processed, where the claim requires it to be. -/
theorem c3_dispatch_loop_stops_on_first_failure :
    run_loop [{ payload := "not json", parsed := none, submit := Except.ok () },
              { payload := "ok", parsed := some exampleMessage,
                submit := Except.ok () }]
      = ([], LoopExit.panicked) ∧
    run_loop [{ payload := "m1", parsed := some exampleMessage,
                submit := Except.error "submit failed" },
              { payload := "m2", parsed := some exampleMessage,
                submit := Except.ok () }]
      = ([], LoopExit.errored "submit failed") :=
  ⟨rfl, rfl⟩

/-- When the first container status carries no terminated state, the
`completion_result` computed by the terminal-phase block stays `None`
(`handle_completion` writes nothing). -/
theorem handleTerminal_completion_none (tool_log : List LogEntry)
    (status : PodStatus) (h : statusFirstTerminated status = none) :
    (match ((status.container_statuses.getD []).head?.bind
        fun cs => cs.state) with
      | some state => handle_completion tool_log state
      | none => none) = (none : Option CompletionResult) := by
  unfold statusFirstTerminated at h
  cases hs : ((status.container_statuses.getD []).head?.bind
      fun cs => cs.state) with
  | none => rfl
  | some state =>
    rw [hs] at h
    simp only [Option.bind] at h
    simp [handle_completion, h]

/-- When the first container status of the terminal pod carries no terminated
state, the terminal-phase handler yields `IncompleteStatus`, provided the
deletion path does not itself error out first. -/
theorem handleTerminal_no_terminated_state (env_var : Option String)
    (tool_log : List LogEntry) (api_delete : Except KubeError Unit)
    (status : PodStatus) (h : statusFirstTerminated status = none)
    (hdel : should_delete_pod env_var = false ∨
      delete_pod_name api_delete = Except.ok ()) :
    (handleTerminal env_var tool_log api_delete status).result
      = Except.error KubernetesClientError.IncompleteStatus := by
  have hcr := handleTerminal_completion_none tool_log status h
  cases hsd : should_delete_pod env_var with
  | false => simp [handleTerminal, hsd, hcr]
  | true =>
    rcases hdel with hd | hd
    · rw [hsd] at hd; cases hd
    · simp [handleTerminal, hsd, hd, hcr]

/-- Every completed watch whose polls all succeed and whose terminal
observations all lack a terminated container state ends in
`IncompleteStatus`, provided the deletion path does not error. -/
theorem watchLoop_incomplete_status (env_var : Option String)
    (tool_log : List LogEntry) (api_delete : Except KubeError Unit)
    (hdel : should_delete_pod env_var = false ∨
      delete_pod_name api_delete = Except.ok ()) :
    ∀ (fuel : Nat) (polls : Nat → Except KubeError Pod) (r : WatchResult),
      (∀ n, (polls n).isOk = true) →
      (∀ n pod status, polls n = Except.ok pod →
        terminalStatus pod = some status →
        statusFirstTerminated status = none) →
      watchLoop env_var tool_log api_delete polls fuel = some r →
      r.result = Except.error KubernetesClientError.IncompleteStatus := by
  intro fuel
  induction fuel with
  | zero =>
    intro polls r _ _ hrun
    cases hrun
  | succ n ih =>
    intro polls r hnoerr hterm hrun
    cases hp : polls 0 with
    | error e =>
      have h0 := hnoerr 0
      rw [hp] at h0
      simp [Except.isOk, Except.toBool] at h0
    | ok pod =>
      cases ht : terminalStatus pod with
      | some status =>
        simp only [watchLoop, hp, ht, Option.some.injEq] at hrun
        rw [← hrun]
        exact handleTerminal_no_terminated_state env_var tool_log api_delete
          status (hterm 0 pod status hp ht) hdel
      | none =>
        simp only [watchLoop, hp, ht] at hrun
        exact ih (fun k => polls (k + 1)) r (fun k => hnoerr (k + 1))
          (fun k p s h1 h2 => hterm (k + 1) p s h1 h2) hrun

/-- When the first container status of the terminal pod carries no terminated
state, the terminal-phase handler never yields an assembled
`CompletionResult`, whatever the deletion toggle and delete outcome: its
result is `IncompleteStatus` or a propagated deletion error. -/
theorem handleTerminal_no_terminated_never_ok (env_var : Option String)
    (tool_log : List LogEntry) (api_delete : Except KubeError Unit)
    (status : PodStatus) (h : statusFirstTerminated status = none)
    (c : CompletionResult) :
    (handleTerminal env_var tool_log api_delete status).result
      ≠ Except.ok c := by
  have hcr := handleTerminal_completion_none tool_log status h
  intro hc
  cases hsd : should_delete_pod env_var with
  | false => simp [handleTerminal, hsd, hcr] at hc
  | true =>
    cases hd : delete_pod_name api_delete with
    | error e => simp [handleTerminal, hsd, hd, hcr] at hc
    | ok u => simp [handleTerminal, hsd, hd, hcr] at hc

/-- Every completed watch whose polls all succeed and whose terminal
observations all lack a terminated container state ends without an assembled
`CompletionResult`, whatever the deletion toggle and delete outcome. -/
theorem watchLoop_never_ok (env_var : Option String)
    (tool_log : List LogEntry) (api_delete : Except KubeError Unit) :
    ∀ (fuel : Nat) (polls : Nat → Except KubeError Pod) (r : WatchResult),
      (∀ n, (polls n).isOk = true) →
      (∀ n pod status, polls n = Except.ok pod →
        terminalStatus pod = some status →
        statusFirstTerminated status = none) →
      watchLoop env_var tool_log api_delete polls fuel = some r →
      ∀ c, r.result ≠ Except.ok c := by
  intro fuel
  induction fuel with
  | zero =>
    intro polls r _ _ hrun
    cases hrun
  | succ n ih =>
    intro polls r hnoerr hterm hrun
    cases hp : polls 0 with
    | error e =>
      have h0 := hnoerr 0
      rw [hp] at h0
      simp [Except.isOk, Except.toBool] at h0
    | ok pod =>
      cases ht : terminalStatus pod with
      | some status =>
        simp only [watchLoop, hp, ht, Option.some.injEq] at hrun
        rw [← hrun]
        exact handleTerminal_no_terminated_never_ok env_var tool_log api_delete
          status (hterm 0 pod status hp ht)
      | none =>
        simp only [watchLoop, hp, ht] at hrun
        exact ih (fun k => polls (k + 1)) r (fun k => hnoerr (k + 1))
          (fun k p s h1 h2 => hterm (k + 1) p s h1 h2) hrun

/-- A pod observed in phase Failed whose first container status has a state
with no terminated variant. -/
def failedStatusNoTerminated : PodStatus :=
  { phase := some "Failed"
    container_statuses := some [{ state := some { terminated := none } }] }

/-- The pod wrapping `failedStatusNoTerminated`. -/
def failedPodNoTerminated : Pod := { status := some failedStatusNoTerminated }

/-- C10 (counterexample): with deletion enabled (env unset) and the cluster
delete failing, a watch reaching phase Failed with no terminated container
state returns the propagated deletion error, not `IncompleteStatus` — the
`?` on `delete_pod_name` fires before the post-loop
`completion_result.ok_or(IncompleteStatus)` — refuting the claim as stated. -/
theorem c10_delete_error_counterexample :
    wait_for_completion (some "job-1") none [] (Except.error KubeError.other)
        (fun _ => Except.ok failedPodNoTerminated) 1
      = some { result := Except.error
                 (KubernetesClientError.KubeError KubeError.other)
               delete_attempted := true
               removed_from_registry := false } ∧
    (Except.error (KubernetesClientError.KubeError KubeError.other) :
        Except KubernetesClientError CompletionResult)
      ≠ Except.error KubernetesClientError.IncompleteStatus :=
  ⟨rfl, by decide⟩

/-- C10 (amended): for every watch whose polls succeed and whose terminal
observations carry no terminated container state, `wait_for_completion` never
returns an assembled `CompletionResult`; its result is the `IncompleteStatus`
error whenever the deletion path does not itself error (deletion disabled, or
the cluster delete succeeding) — when deletion is enabled and the delete
fails, the propagated deletion error is returned instead. -/
theorem c10_no_completion_without_terminated_state
    (stored_pod_name : String) (env_var : Option String)
    (tool_log : List LogEntry) (api_delete : Except KubeError Unit)
    (polls : Nat → Except KubeError Pod) (fuel : Nat) (r : WatchResult)
    (hnoerr : ∀ n, (polls n).isOk = true)
    (hterm : ∀ n pod status, polls n = Except.ok pod →
      terminalStatus pod = some status → statusFirstTerminated status = none)
    (hrun : wait_for_completion (some stored_pod_name) env_var tool_log
      api_delete polls fuel = some r) :
    (∀ c, r.result ≠ Except.ok c) ∧
    ((should_delete_pod env_var = false ∨
        delete_pod_name api_delete = Except.ok ()) →
      r.result = Except.error KubernetesClientError.IncompleteStatus) := by
  constructor
  · exact watchLoop_never_ok env_var tool_log api_delete fuel polls r hnoerr
      hterm hrun
  · intro hdel
    exact watchLoop_incomplete_status env_var tool_log api_delete hdel fuel
      polls r hnoerr hterm hrun

/-- Witness for C10's amended theorem: a single poll observing phase Failed
with no terminated container state, deletion disabled. -/
theorem c10_no_completion_witness :
    (handleTerminal (some "false") [] (Except.ok ())
        failedStatusNoTerminated).result
      = Except.error KubernetesClientError.IncompleteStatus :=
  (c10_no_completion_without_terminated_state "job-1" (some "false") []
    (Except.ok ()) (fun _ => Except.ok failedPodNoTerminated) 1
    (handleTerminal (some "false") [] (Except.ok ()) failedStatusNoTerminated)
    (fun _ => rfl)
    (fun _ pod status h1 h2 => by cases h1; cases h2; rfl)
    rfl).2 (Or.inl rfl)

end Zefiro
